import Mathlib

/-!
Shallow embedding of src/dingtalk_stream/stream.py (DingTalkStreamClient) and
verification of the specification's claims about its connection lifecycle and
message-routing core.  Python effects (logging, printing, websocket sends,
websocket close, sleeping) are modelled as an ordered trace of `Effect`s;
Python exceptions are modelled with `Except Exc`; JSON values with `Json`.
-/

/-- A JSON value, as produced by json.loads. -/
inductive Json where
  | null
  | bool (b : Bool)
  | str (s : String)
  | num (n : Int)
  | arr (xs : List Json)
  | obj (fields : List (String × Json))

/-- Python equality of a loaded JSON value against a string literal
(msg_type == 'SYSTEM'): true only for an equal string. -/
def Json.eqStr : Json → String → Bool
  | .str s, t => s = t
  | _, _ => false

/-- Python dict truthiness of a JSON value (bool(x) for the loaded object):
None, False, 0, empty string, empty list and empty dict are falsy. -/
def Json.truthy : Json → Bool
  | .null => false
  | .bool b => b
  | .str s => s ≠ ""
  | .num n => n ≠ 0
  | .arr xs => ¬ xs.isEmpty
  | .obj fs => ¬ fs.isEmpty

/-- Field lookup in a JSON object (dict subscript / dict.get with no default):
none when the value is not an object or the key is absent. -/
def Json.getField : Json → String → Option Json
  | .obj fields, k => fields.lookup k
  | _, _ => none

/-- Python exceptions that the embedded code can raise. -/
inductive Exc where
  | jsonDecodeError
  | attributeError
  | decodeError (s : String)
  | handlerFault (s : String)
  | nameError
  | keyError
deriving DecidableEq, Repr

/-- One observable side effect of the client, in program order. -/
inductive Effect where
  | logInfo (s : String)
  | logWarning (s : String)
  | logError (s : String)
  | printed (s : String)
  | send (j : Json)
  | close
  | sleep (seconds : Nat)

/-- json_message.get(key, default) — dict.get with a default.  Raises
AttributeError when the receiver is not a dict, as Python does. -/
def dictGet (j : Json) (key : String) (default : Json) : Except Exc Json :=
  match j with
  | .obj fields => .ok ((fields.lookup key).getD default)
  | _ => .error .attributeError

/-- Common header fields of a decoded message envelope. -/
structure MsgHeaders where
  topic : String
  messageId : String
deriving DecidableEq, Repr

/-- A decoded inbound message envelope: common headers plus opaque payload. -/
structure StreamMessage where
  headers : MsgHeaders
  data : Json

/-- The type discriminator of system messages (SystemMessage.TYPE). -/
def SystemMessage.TYPE : String := "SYSTEM"

/-- The reserved disconnect topic (SystemMessage.TOPIC_DISCONNECT). -/
def SystemMessage.TOPIC_DISCONNECT : String := "disconnect"

/-- The type discriminator of event messages (EventMessage.TYPE). -/
def EventMessage.TYPE : String := "EVENT"

/-- The type discriminator of callback messages (CallbackMessage.TYPE). -/
def CallbackMessage.TYPE : String := "CALLBACK"

/-- DingTalkStreamClient.TAG_DISCONNECT, stream.py line 31. -/
def DingTalkStreamClient.TAG_DISCONNECT : String := "disconnect"

/-- Modelled from the spec: the message classes SystemMessage, EventMessage and
CallbackMessage with their from_dict decoders live in frames.py, which is not
under src/.  Per the spec an inbound frame is a JSON object of shape
type / headers (topic, messageId, timing metadata) / data, and decoding
failure (malformed structure) raises.  All three from_dict decoders read the
same common envelope shape, so one decoder models them. -/
def messageFromDict (j : Json) : Except Exc StreamMessage :=
  match j.getField "headers" with
  | some (Json.obj hfields) =>
    match (Json.obj hfields).getField "topic", (Json.obj hfields).getField "messageId" with
    | some (Json.str topic), some (Json.str messageId) =>
      Except.ok ⟨⟨topic, messageId⟩, (j.getField "data").getD Json.null⟩
    | _, _ => Except.error (Exc.decodeError "headers")
  | _ => Except.error (Exc.decodeError "headers")

/-- An acknowledgment object produced by a handler. -/
structure AckMessage where
  headers : MsgHeaders
  data : Json

/-- Modelled from the spec: the acknowledgment class with its to_dict
serializer lives in frames.py, which is not under src/.  Per the spec an
outbound ack frame mirrors the request headers (same messageId) plus the
handler-produced result payload. -/
def AckMessage.to_dict (a : AckMessage) : Json :=
  Json.obj [("headers", Json.obj [("topic", Json.str a.headers.topic),
                                  ("messageId", Json.str a.headers.messageId)]),
            ("data", a.data)]

/-- A handler's raw_process capability: process one envelope and asynchronously
produce zero-or-one acknowledgment, or raise.  Handlers live in handlers.py,
which is not under src/; the capability shape is modelled from the spec. -/
def HandlerFn : Type := StreamMessage → Except Exc (Option AckMessage)

/-- The routing-relevant state of a DingTalkStreamClient: the singleton system
and event handlers and the callback handler registry (topic keyed,
populated before the session starts). -/
structure RouterClient where
  system_handler : HandlerFn
  event_handler : HandlerFn
  callback_handler_map : List (String × HandlerFn)

/-- stream.py lines 92-130, DingTalkStreamClient.route_message before the
final ack write-back: dispatch on the type discriminator, decode, invoke the
selected handler, and produce (effects so far, raised exception or
(result, ack)).  `result` is '' except for a SYSTEM frame with the
disconnect topic, where it is TAG_DISCONNECT. -/
def route_message_core (c : RouterClient) (json_message : Json) :
    List Effect × Except Exc (String × Option AckMessage) :=
  match dictGet json_message "type" (Json.str "") with
  | .error e => ([], .error e)
  | .ok msg_type =>
    if msg_type.eqStr SystemMessage.TYPE then
      match messageFromDict json_message with
      | .error e => ([], .error e)
      | .ok msg =>
        match c.system_handler msg with
        | .error e => ([], .error e)
        | .ok ack =>
          if msg.headers.topic = SystemMessage.TOPIC_DISCONNECT then
            ([Effect.logInfo "received disconnect topic"],
             .ok (DingTalkStreamClient.TAG_DISCONNECT, ack))
          else
            ([Effect.logWarning "unknown message topic"], .ok ("", ack))
    else if msg_type.eqStr EventMessage.TYPE then
      match messageFromDict json_message with
      | .error e => ([], .error e)
      | .ok msg =>
        match c.event_handler msg with
        | .error e => ([], .error e)
        | .ok ack => ([], .ok ("", ack))
    else if msg_type.eqStr CallbackMessage.TYPE then
      match messageFromDict json_message with
      | .error e => ([], .error e)
      | .ok msg =>
        match c.callback_handler_map.lookup msg.headers.topic with
        | some handler =>
          match handler msg with
          | .error e => ([Effect.printed "msg"], .error e)
          | .ok ack => ([Effect.printed "msg"], .ok ("", ack))
        | none =>
          ([Effect.printed "msg", Effect.logWarning "unknown callback message topic"],
           .ok ("", none))
    else
      ([Effect.logWarning "unknown message"], .ok ("", none))

/-- stream.py lines 92-133, DingTalkStreamClient.route_message: the dispatch
of route_message_core followed by lines 131-133: if the handler produced a
truthy ack, serialize it and send it over the websocket, then return result. -/
def route_message (c : RouterClient) (json_message : Json) :
    List Effect × Except Exc String :=
  match route_message_core c json_message with
  | (effs, .error e) => (effs, .error e)
  | (effs, .ok (result, some a)) =>
      (effs ++ [Effect.send (AckMessage.to_dict a)], .ok result)
  | (effs, .ok (result, none)) => (effs, .ok result)

/-- stream.py lines 83-89, DingTalkStreamClient.background_task: one dispatch
unit.  Awaits route_message; on the disconnect result closes the websocket;
any exception is caught and logged.  Total: no exception escapes. -/
def background_task (c : RouterClient) (json_message : Json) : List Effect :=
  match route_message c json_message with
  | (effs, .ok result) =>
      if result = DingTalkStreamClient.TAG_DISCONNECT then effs ++ [Effect.close]
      else effs
  | (effs, .error _) => effs ++ [Effect.logError "error processing message"]

/-- One raw inbound frame of the Transport Session, by the outcome of
json.loads on its text: `malformed` when json.loads raises
json.JSONDecodeError, `frame j` when it parses to the value j. -/
inductive RawFrame where
  | malformed
  | frame (j : Json)

/-- stream.py lines 79-81, the frame-receiving loop of one Transport Session:
for each raw frame, json.loads it in the loop body and spawn a dispatch unit
(asyncio.create_task(background_task ...)) with the parsed value.  Returns
the parsed messages handed to dispatch units, in receipt order, and the
exception that terminated the loop when json.loads raised (remaining frames
are never received). -/
def receive_loop : List RawFrame → List Json × Option Exc
  | [] => ([], none)
  | RawFrame.malformed :: _ => ([], some Exc.jsonDecodeError)
  | RawFrame.frame j :: rest =>
      let r := receive_loop rest
      (j :: r.fst, r.snd)

/-- The environment of one execution of get_host_ip: which of its three
fallible steps (socket creation, connect, getsockname) fails first, or the
address it determines. -/
inductive HostIpEnv where
  | socketCreateFails
  | connectFails
  | getsocknameFails
  | ok (ip : String)
deriving DecidableEq, Repr

/-- stream.py lines 186-198, DingTalkStreamClient.get_host_ip, translated with
Python try/finally semantics.  ip starts as ''.  If socket creation itself
raises, the local s is unbound, so s.close() in the finally block raises
UnboundLocalError (a NameError) before the return is reached, and that
exception escapes.  If a later step (connect, getsockname) raises, the
finally block closes the socket and its return statement swallows the
in-flight exception, returning the current ip (still ''). -/
def get_host_ip : HostIpEnv → Except Exc String
  | HostIpEnv.socketCreateFails => .error Exc.nameError
  | HostIpEnv.connectFails => .ok ""
  | HostIpEnv.getsocknameFails => .ok ""
  | HostIpEnv.ok ip => .ok ip

/-- stream.py lines 160-171: the JSON negotiation request body posted by
open_connection, built from the credential, the subscription topics derived
from the registered handlers, and the best-effort local address. -/
def negotiation_request_body (client_id client_secret : String)
    (is_event_required : Bool) (callback_topics : List String) (ip : String) : Json :=
  Json.obj [("clientId", Json.str client_id),
            ("clientSecret", Json.str client_secret),
            ("subscriptions", Json.arr
              ((if is_event_required then
                  [Json.obj [("type", Json.str "EVENT"), ("topic", Json.str "*")]]
                else []) ++
               callback_topics.map fun t =>
                 Json.obj [("type", Json.str "CALLBACK"), ("topic", Json.str t)])),
            ("ua", Json.str "dingtalk-sdk-python"),
            ("localIp", Json.str ip)]

/-- The outcome of the requests.post call in open_connection: the call itself
raises (transport error), or an HTTP response arrives with a status code and
a body whose JSON parse either fails (none) or yields a value. -/
inductive HttpResult where
  | raises
  | response (status : Nat) (body : Option Json)

/-- requests' Response.raise_for_status raises HTTPError exactly for status
codes 400-599. -/
def raise_for_status_raises (status : Nat) : Bool :=
  400 ≤ status ∧ status < 600

/-- stream.py lines 151-184, DingTalkStreamClient.open_connection: log, build
the request body (get_host_ip runs here, before the try block), post it; the
try block catches a raising post or an error status and returns the failure
sentinel None; response.json() runs after the try block, so a malformed body
raises to the caller. -/
def open_connection (hostIp : HostIpEnv) (http : HttpResult) :
    List Effect × Except Exc (Option Json) :=
  let effs := [Effect.logInfo "open connection"]
  match get_host_ip hostIp with
  | .error e => (effs, .error e)
  | .ok _ip =>
    match http with
    | HttpResult.raises =>
        (effs ++ [Effect.logError "open connection failed"], .ok none)
    | HttpResult.response status body =>
        if raise_for_status_raises status then
          (effs ++ [Effect.logError "open connection failed"], .ok none)
        else
          match body with
          | none => (effs, .error Exc.jsonDecodeError)
          | some jv => (effs, .ok (some jv))

/-- Python truthiness of open_connection's return value as tested by
`if not connection` in start: None and falsy JSON values (such as an empty
object) fail the test. -/
def connTruthy : Option Json → Bool
  | none => false
  | some j => j.truthy

/-- How the negotiation loop of start left off after consuming the modelled
environment: connected with a truthy connection value, still looping when the
modelled outcomes ran out, or terminated by an uncaught exception. -/
inductive LoopEnd where
  | connected (j : Json)
  | exhausted
  | raised (e : Exc)

/-- stream.py lines 66-75, the negotiation phase of DingTalkStreamClient.start:
each iteration calls open_connection (its outcome is the next element of the
environment list); a falsy connection logs an error, sleeps 10 seconds and
retries; a truthy connection logs the endpoint and proceeds to the websocket
connect; an exception raised by open_connection propagates out of start. -/
def start_negotiation_loop : List (Except Exc (Option Json)) → List Effect × LoopEnd
  | [] => ([], LoopEnd.exhausted)
  | Except.error e :: _ => ([], LoopEnd.raised e)
  | Except.ok conn :: rest =>
    if h : connTruthy conn then
      match conn, h with
      | some j, _ => ([Effect.logInfo "endpoint is"], LoopEnd.connected j)
    else
      let r := start_negotiation_loop rest
      (Effect.logError "open connection failed" :: Effect.sleep 10 :: r.fst, r.snd)

/-- One populated access-token cache (the non-empty self._access_token dict,
as only ever written by get_access_token). -/
structure AccessTokenEntry where
  accessToken : String
  expireTime : Int
deriving DecidableEq, Repr

/-- stream.py lines 200-202, DingTalkStreamClient.reset_access_token: reset
the token cache to the empty dict. -/
def reset_access_token (_cache : Option AccessTokenEntry) : Option AccessTokenEntry :=
  none

/-- The outcome of the token fetch in get_access_token: the post or
raise_for_status raises inside the try block (caught, returns None), the
response body after the try block is malformed or lacks a required key
(response.json() or the expireIn lookup raises, uncaught), or a well-formed
body with accessToken and expireIn arrives. -/
inductive TokenFetch where
  | raisesInTry
  | badBody (e : Exc)
  | ok (accessToken : String) (expireIn : Int)
deriving DecidableEq, Repr

/-- The observable outcome of one get_access_token call: what it returns (or
raises), the cache it leaves behind, and whether it performed a fetch. -/
structure TokenResult where
  returned : Except Exc (Option String)
  cacheAfter : Option AccessTokenEntry
  fetched : Bool

/-- stream.py lines 209-233, the fetch path of get_access_token: post the
credential; a raise inside the try block is caught, logged and yields None
with the cache unchanged; a bad body raises after the try block; on success
the result is cached with expireTime = now2 + expireIn - 5*60 (now2 is the
second int(time.time()) call, line 231) and the token is returned. -/
def get_access_token_fetch (cache : Option AccessTokenEntry) (fetch : TokenFetch)
    (now2 : Int) : TokenResult :=
  match fetch with
  | TokenFetch.raisesInTry => ⟨.ok none, cache, true⟩
  | TokenFetch.badBody e => ⟨.error e, cache, true⟩
  | TokenFetch.ok tok expireIn =>
      let entry : AccessTokenEntry := ⟨tok, now2 + expireIn - 5 * 60⟩
      ⟨.ok (some tok), some entry, true⟩

/-- stream.py lines 204-233, DingTalkStreamClient.get_access_token: take
now = int(time.time()); if the cache dict is truthy (non-empty) and
now < its expireTime, return the cached token without fetching; otherwise
fetch. -/
def get_access_token (cache : Option AccessTokenEntry) (now : Int)
    (fetch : TokenFetch) (now2 : Int) : TokenResult :=
  match cache with
  | some entry =>
      if now < entry.expireTime then ⟨.ok (some entry.accessToken), some entry, false⟩
      else get_access_token_fetch cache fetch now2
  | none => get_access_token_fetch cache fetch now2

/-- One invocation of a registered handler's pre_start hook, identified by the
handler's registration role. -/
inductive PreStartCall where
  | event
  | system
  | callback (topic : String)
deriving DecidableEq, Repr

/-- The handler registrations of a client that pre_start iterates over: the
singleton event and system handlers always exist; the callback registry is
keyed by topic (dict keys, hence no duplicates in a real client). -/
structure ClientHandlers where
  callback_topics : List String
deriving DecidableEq, Repr

/-- stream.py lines 54-61, DingTalkStreamClient.pre_start: if _pre_started is
already set, return immediately with no calls; otherwise set the flag and call
pre_start on the event handler, the system handler, and every registered
callback handler in registry order.  Returns (new flag, invocations made). -/
def pre_start (c : ClientHandlers) (pre_started : Bool) : Bool × List PreStartCall :=
  if pre_started then (pre_started, [])
  else (true, PreStartCall.event :: PreStartCall.system ::
              c.callback_topics.map PreStartCall.callback)

/-- n successive calls of pre_start from a given flag state, accumulating the
handler pre_start invocations of all calls in order. -/
def pre_start_iter (c : ClientHandlers) : Nat → Bool → Bool × List PreStartCall
  | 0, st => (st, [])
  | n + 1, st =>
      let r1 := pre_start c st
      let r2 := pre_start_iter c n r1.fst
      (r2.fst, r1.snd ++ r2.snd)

/-- Whether an effect is a websocket send (an outbound ack write-back). -/
def Effect.isSend : Effect → Bool
  | .send _ => true
  | _ => false

/-- A handler mirrors the request headers: any acknowledgment it returns
carries the message id of the envelope it was invoked on. -/
def mirrorsHeaders (h : HandlerFn) : Prop :=
  ∀ m a, h m = Except.ok (some a) → a.headers.messageId = m.headers.messageId

/-- A concrete handler that acks every message, mirroring its headers. -/
def sampleHandler : HandlerFn :=
  fun m => Except.ok (some ⟨m.headers, Json.str "ok"⟩)

/-- A concrete handler that raises on every message. -/
def faultyHandler : HandlerFn :=
  fun _ => Except.error (Exc.handlerFault "boom")

/-- A concrete client: acking system/event handlers and one callback topic. -/
def sampleClient : RouterClient :=
  ⟨sampleHandler, sampleHandler, [("chat", sampleHandler)]⟩

/-- A concrete client whose event handler raises. -/
def faultyClient : RouterClient :=
  ⟨sampleHandler, faultyHandler, []⟩

/-- A concrete SYSTEM frame with the disconnect topic. -/
def sys_disconnect_frame : Json :=
  Json.obj [("type", Json.str "SYSTEM"),
            ("headers", Json.obj [("topic", Json.str "disconnect"),
                                  ("messageId", Json.str "m1")])]

/-- A concrete EVENT frame. -/
def event_frame : Json :=
  Json.obj [("type", Json.str "EVENT"),
            ("headers", Json.obj [("topic", Json.str "t"),
                                  ("messageId", Json.str "m2")])]

/-- A concrete CALLBACK frame whose topic has no registered handler in
sampleClient. -/
def callback_orphan_frame : Json :=
  Json.obj [("type", Json.str "CALLBACK"),
            ("headers", Json.obj [("topic", Json.str "nochat"),
                                  ("messageId", Json.str "m3")])]

/-- A concrete CALLBACK frame for the registered topic of sampleClient. -/
def callback_chat_frame : Json :=
  Json.obj [("type", Json.str "CALLBACK"),
            ("headers", Json.obj [("topic", Json.str "chat"),
                                  ("messageId", Json.str "m4")])]

/-- A concrete SYSTEM frame whose structural decoding fails (no headers). -/
def undecodable_frame : Json :=
  Json.obj [("type", Json.str "SYSTEM")]

/-- Helper: once the flag is set, further pre_start calls do nothing. -/
theorem pre_start_iter_of_started (c : ClientHandlers) (n : Nat) :
    pre_start_iter c n true = (true, []) := by
  induction n with
  | zero => rfl
  | succ n ih => simp [pre_start_iter, pre_start, ih]

/-- C9 (code_bug evidence): get_host_ip returns the empty string when connect
or getsockname fails, but when socket creation itself fails the unbound local
in the finally block raises a NameError that escapes to the caller, and
open_connection (which builds the request body before its try block)
propagates it. -/
theorem get_host_ip_behaviour :
    get_host_ip HostIpEnv.connectFails = Except.ok "" ∧
    get_host_ip HostIpEnv.getsocknameFails = Except.ok "" ∧
    get_host_ip HostIpEnv.socketCreateFails = Except.error Exc.nameError ∧
    (open_connection HostIpEnv.socketCreateFails
        (HttpResult.response 200 (some (Json.obj [])))).snd =
      Except.error Exc.nameError := by
  refine ⟨rfl, rfl, rfl, rfl⟩

/-- C7: as long as open_connection keeps returning the failure sentinel, the
negotiation loop of start logs the failure, sleeps 10 seconds and retries
after every single failure, and never leaves the loop nor raises. -/
theorem negotiation_failure_retries_indefinitely
    (outs : List (Except Exc (Option Json)))
    (h : ∀ o ∈ outs, ∃ c, o = Except.ok c ∧ connTruthy c = false) :
    (start_negotiation_loop outs).fst =
      (outs.map fun _ => [Effect.logError "open connection failed",
                          Effect.sleep 10]).flatten ∧
    (start_negotiation_loop outs).snd = LoopEnd.exhausted := by
  induction outs with
  | nil => exact ⟨rfl, rfl⟩
  | cons o rest ih =>
    obtain ⟨cv, rfl, hc⟩ := h o (by simp)
    have hr := ih (fun o ho => h o (by simp [ho]))
    refine ⟨?_, ?_⟩ <;>
      simp [start_negotiation_loop, hc, hr.1, hr.2]

/-- C7 witness: two consecutive failures produce exactly two
(log error, sleep 10) pairs and the loop is still running. -/
theorem negotiation_failure_retries_indefinitely_witness :
    (start_negotiation_loop [Except.ok none, Except.ok none]).snd =
      LoopEnd.exhausted :=
  (negotiation_failure_retries_indefinitely [Except.ok none, Except.ok none]
    (by intro o ho; refine ⟨none, ?_, rfl⟩; simp at ho; simp [ho])).2

/-- C8: get_access_token returns without fetching exactly when the cache dict
is non-empty and now is strictly below the stored expiry; a cache hit returns
the cached token and leaves the cache unchanged; a successful fetch caches the
token with expiry fetch-time + expireIn - 300 seconds and returns it. -/
theorem access_token_cache_spec (cache : Option AccessTokenEntry) (now : Int)
    (fetch : TokenFetch) (now2 : Int) :
    ((get_access_token cache now fetch now2).fetched = false ↔
      ∃ e, cache = some e ∧ now < e.expireTime) ∧
    (∀ e, cache = some e → now < e.expireTime →
      (get_access_token cache now fetch now2).returned =
        Except.ok (some e.accessToken) ∧
      (get_access_token cache now fetch now2).cacheAfter = some e) ∧
    (∀ tok expireIn, fetch = TokenFetch.ok tok expireIn →
      (get_access_token cache now fetch now2).fetched = true →
      (get_access_token cache now fetch now2).cacheAfter =
        some ⟨tok, now2 + expireIn - 5 * 60⟩ ∧
      (get_access_token cache now fetch now2).returned = Except.ok (some tok)) := by
  refine ⟨?_, ?_, ?_⟩
  · cases cache with
    | none => cases fetch <;> simp [get_access_token, get_access_token_fetch]
    | some entry =>
      by_cases hlt : now < entry.expireTime
      · simp [get_access_token, hlt]
      · cases fetch <;> simp [get_access_token, hlt, get_access_token_fetch]
  · rintro e rfl hlt2
    simp [get_access_token, hlt2]
  · rintro tok expireIn rfl hfetched
    cases cache with
    | none => exact ⟨rfl, rfl⟩
    | some entry =>
      by_cases hlt : now < entry.expireTime
      · simp [get_access_token, hlt] at hfetched
      · simp [get_access_token, hlt, get_access_token_fetch]

/-- C8 witness: with an empty cache a successful fetch at time 50 with
expireIn 7200 caches expiry 50 + 7200 - 300 and returns the token. -/
theorem access_token_cache_spec_witness :
    (get_access_token none 0 (TokenFetch.ok "tok" 7200) 50).cacheAfter =
      some ⟨"tok", 50 + 7200 - 5 * 60⟩ ∧
    (get_access_token none 0 (TokenFetch.ok "tok" 7200) 50).returned =
      Except.ok (some "tok") :=
  (access_token_cache_spec none 0 (TokenFetch.ok "tok" 7200) 50).2.2 "tok" 7200 rfl rfl

/-- C10: pre_start is idempotent: from any flag state, n+1 successive calls
have exactly the observable behaviour of the first call, each registered
handler's pre_start runs at most once in total (for a registry without
duplicate topics, as a dict guarantees), and a call on an already
pre-started client changes nothing and invokes nothing. -/
theorem pre_start_idempotent (c : ClientHandlers) (st : Bool) (n : Nat)
    (hd : c.callback_topics.Nodup) :
    pre_start_iter c (n + 1) st = pre_start c st ∧
    (∀ call : PreStartCall,
      (pre_start_iter c (n + 1) st).snd.count call ≤ 1) ∧
    pre_start c true = (true, []) := by
  have hfst : (pre_start c st).fst = true := by
    cases st <;> simp [pre_start]
  have hiter : pre_start_iter c (n + 1) st = pre_start c st := by
    have h2 : pre_start_iter c (n + 1) st =
        ((pre_start_iter c n (pre_start c st).fst).fst,
         (pre_start c st).snd ++ (pre_start_iter c n (pre_start c st).fst).snd) := rfl
    rw [h2, hfst, pre_start_iter_of_started]
    simp
    rw [← hfst]
  refine ⟨hiter, ?_, by simp [pre_start]⟩
  intro call
  rw [hiter]
  have hnodup : (pre_start c st).snd.Nodup := by
    cases st with
    | true => simp [pre_start]
    | false =>
      have hps : pre_start c false =
          (true, PreStartCall.event :: PreStartCall.system ::
                 c.callback_topics.map PreStartCall.callback) := rfl
      rw [hps]
      refine List.nodup_cons.mpr ⟨?_, List.nodup_cons.mpr ⟨?_, ?_⟩⟩
      · simp
      · simp
      · exact hd.map (fun a b hab => by injection hab)
  exact List.nodup_iff_count_le_one.mp hnodup call

/-- C10 witness: two calls on a fresh client with one registered topic invoke
event, system and the topic handler exactly once each. -/
theorem pre_start_idempotent_witness :
    pre_start_iter ⟨["chat"]⟩ (1 + 1) false = pre_start ⟨["chat"]⟩ false ∧
    (∀ call : PreStartCall,
      (pre_start_iter ⟨["chat"]⟩ (1 + 1) false).snd.count call ≤ 1) ∧
    pre_start ⟨["chat"]⟩ true = (true, []) :=
  pre_start_idempotent ⟨["chat"]⟩ false 1 (by simp)

/-- C2 counterexample: a 2xx response whose body is not valid JSON makes
open_connection raise to its caller (response.json() runs after the try
block), instead of returning the failure sentinel None. -/
theorem open_connection_malformed_body_raises :
    open_connection (HostIpEnv.ok "10.0.0.1") (HttpResult.response 200 none) =
      ([Effect.logInfo "open connection"], Except.error Exc.jsonDecodeError) := by
  rfl

/-- C2 amended: when the local address lookup does not itself raise,
open_connection returns the failure sentinel None on a raising post
(transport error) and on an HTTP error status (4xx/5xx), with no exception
escaping; but a malformed response body on a non-error status raises a JSON
decode error to the caller, and a well-formed body is returned as parsed. -/
theorem open_connection_failure_sentinel (hostIp : HostIpEnv) (http : HttpResult)
    (hip : ∃ ip, get_host_ip hostIp = Except.ok ip) :
    (http = HttpResult.raises →
      (open_connection hostIp http).snd = Except.ok none) ∧
    (∀ s b, http = HttpResult.response s b → raise_for_status_raises s = true →
      (open_connection hostIp http).snd = Except.ok none) ∧
    (∀ s, http = HttpResult.response s none → raise_for_status_raises s = false →
      (open_connection hostIp http).snd = Except.error Exc.jsonDecodeError) ∧
    (∀ s jv, http = HttpResult.response s (some jv) →
      raise_for_status_raises s = false →
      (open_connection hostIp http).snd = Except.ok (some jv)) := by
  obtain ⟨ip, hip⟩ := hip
  refine ⟨?_, ?_, ?_, ?_⟩
  · rintro rfl
    simp [open_connection, hip]
  · rintro s b rfl hs
    simp [open_connection, hip, hs]
  · rintro s rfl hs
    simp [open_connection, hip, hs]
  · rintro s jv rfl hs
    simp [open_connection, hip, hs]

/-- C2 witness: a transport error (requests.post raising) yields the None
sentinel. -/
theorem open_connection_failure_sentinel_witness :
    (open_connection (HostIpEnv.ok "10.0.0.1") HttpResult.raises).snd =
      Except.ok none :=
  (open_connection_failure_sentinel (HostIpEnv.ok "10.0.0.1") HttpResult.raises
    ⟨"10.0.0.1", rfl⟩).1 rfl

/-- Helper: route_message_core itself never writes to the websocket; the only
send site of route_message is the final ack write-back. -/
theorem route_message_core_no_send (c : RouterClient) (j : Json) :
    ∀ e ∈ (route_message_core c j).fst, e.isSend = false := by
  intro e he
  unfold route_message_core at he
  repeat' split at he
  all_goals simp_all [Effect.isSend]
  rcases he with rfl | rfl <;> rfl

/-- Helper: any acknowledgment route_message_core carries to the write-back
was returned by the handler the frame was routed to, on the decoded
envelope of that very frame. -/
theorem route_message_core_ack_src (c : RouterClient) (j : Json)
    (result : String) (a : AckMessage)
    (h : (route_message_core c j).snd = Except.ok (result, some a)) :
    ∃ msg, messageFromDict j = Except.ok msg ∧
      (c.system_handler msg = Except.ok (some a) ∨
       c.event_handler msg = Except.ok (some a) ∨
       ∃ hf, c.callback_handler_map.lookup msg.headers.topic = some hf ∧
         hf msg = Except.ok (some a)) := by
  unfold route_message_core at h
  repeat' split at h
  all_goals simp_all

/-- Helper: the sample handler mirrors the request headers. -/
theorem sampleHandler_mirrors : mirrorsHeaders sampleHandler := by
  intro m a h
  simp only [sampleHandler, Except.ok.injEq, Option.some.injEq] at h
  subst h
  rfl

/-- C5: routing one inbound frame sends at most one outbound ack, and any
sent ack is exactly the serialization of the acknowledgment object the
routed handler returned, so when every reachable handler mirrors the request
headers, the sent ack's message id equals the decoded frame's message id. -/
theorem route_message_ack_unique_and_faithful (c : RouterClient) (j : Json)
    (hs : mirrorsHeaders c.system_handler)
    (he : mirrorsHeaders c.event_handler)
    (hc : ∀ topic hf, c.callback_handler_map.lookup topic = some hf →
      mirrorsHeaders hf) :
    (route_message c j).fst.countP (fun e => Effect.isSend e) ≤ 1 ∧
    (∀ jv, Effect.send jv ∈ (route_message c j).fst →
      ∃ msg a result, messageFromDict j = Except.ok msg ∧
        (route_message_core c j).snd = Except.ok (result, some a) ∧
        jv = AckMessage.to_dict a ∧
        a.headers.messageId = msg.headers.messageId) := by
  have hnosend := route_message_core_no_send c j
  have hcount : (route_message_core c j).fst.countP (fun e => Effect.isSend e) = 0 :=
    List.countP_eq_zero.mpr (by intro e hee; simp [hnosend e hee])
  rcases hcore : route_message_core c j with ⟨effs, r⟩
  have hnosend2 : ∀ e ∈ effs, Effect.isSend e = false := by
    rw [hcore] at hnosend; exact hnosend
  have hcount2 : effs.countP (fun e => Effect.isSend e) = 0 := by
    rw [hcore] at hcount; exact hcount
  match r with
  | Except.error e =>
    constructor
    · simp [route_message, hcore, hcount2]
    · intro jv hjv
      simp only [route_message, hcore] at hjv
      exact absurd (hnosend2 _ hjv) (by simp [Effect.isSend])
  | Except.ok (result, none) =>
    constructor
    · simp [route_message, hcore, hcount2]
    · intro jv hjv
      simp only [route_message, hcore] at hjv
      exact absurd (hnosend2 _ hjv) (by simp [Effect.isSend])
  | Except.ok (result, some a) =>
    have hsnd : (route_message_core c j).snd = Except.ok (result, some a) := by
      rw [hcore]
    have hsrc := route_message_core_ack_src c j result a hsnd
    obtain ⟨msg, hdec, hwhich⟩ := hsrc
    have hmid : a.headers.messageId = msg.headers.messageId := by
      rcases hwhich with h1 | h1 | ⟨hf, hl, h1⟩
      · exact hs msg a h1
      · exact he msg a h1
      · exact hc _ hf hl msg a h1
    constructor
    · simp only [route_message, hcore, List.countP_append, hcount2]
      simp [Effect.isSend]
    · intro jv hjv
      simp only [route_message, hcore, List.mem_append] at hjv
      rcases hjv with hjv | hjv
      · exact absurd (hnosend2 _ hjv) (by simp [Effect.isSend])
      · simp at hjv
        exact ⟨msg, a, result, hdec, rfl, hjv, hmid⟩

/-- C5 witness: routing the registered-topic callback frame through the
sample client sends at most one ack. -/
theorem route_message_ack_unique_and_faithful_witness :
    (route_message sampleClient callback_chat_frame).fst.countP
      (fun e => Effect.isSend e) ≤ 1 :=
  (route_message_ack_unique_and_faithful sampleClient callback_chat_frame
    sampleHandler_mirrors
    sampleHandler_mirrors
    (by
      intro topic hf hl
      by_cases ht : topic = "chat"
      · subst ht
        have hl2 : (some sampleHandler : Option HandlerFn) = some hf := hl
        injection hl2 with h2
        subst h2
        exact sampleHandler_mirrors
      · have hb : (topic == "chat") = false := beq_eq_false_iff_ne.mpr ht
        simp [sampleClient, List.lookup, hb] at hl)).1

/-- Helper: when route_message raises, the dispatch unit catches it and
appends exactly one error log to the effects already performed. -/
theorem background_task_of_error (c : RouterClient) (j : Json) (e : Exc)
    (h : (route_message c j).snd = Except.error e) :
    background_task c j =
      (route_message c j).fst ++ [Effect.logError "error processing message"] := by
  rcases hr : route_message c j with ⟨effs, r⟩
  rw [hr] at h
  unfold background_task
  rw [hr]
  cases r with
  | error e2 => rfl
  | ok result => simp at h

/-- C3: for a SYSTEM frame that decodes with the reserved disconnect topic,
the dispatch unit's trace is the disconnect log, then the frame's ack (when
the system handler produced one), then the websocket close: the close is
issued only after that frame's ack is sent. -/
theorem disconnect_close_after_ack (c : RouterClient) (j : Json)
    (msg : StreamMessage) (ack : Option AckMessage)
    (htype : dictGet j "type" (Json.str "") =
      Except.ok (Json.str SystemMessage.TYPE))
    (hdec : messageFromDict j = Except.ok msg)
    (htopic : msg.headers.topic = SystemMessage.TOPIC_DISCONNECT)
    (hh : c.system_handler msg = Except.ok ack) :
    background_task c j =
      Effect.logInfo "received disconnect topic" ::
        ((ack.map fun a => Effect.send (AckMessage.to_dict a)).toList ++
          [Effect.close]) := by
  cases ack with
  | none =>
    simp [background_task, route_message, route_message_core, htype, hdec, htopic,
          hh, SystemMessage.TYPE, SystemMessage.TOPIC_DISCONNECT,
          DingTalkStreamClient.TAG_DISCONNECT, Json.eqStr]
  | some a =>
    simp [background_task, route_message, route_message_core, htype, hdec, htopic,
          hh, SystemMessage.TYPE, SystemMessage.TOPIC_DISCONNECT,
          DingTalkStreamClient.TAG_DISCONNECT, Json.eqStr]

/-- C3 witness: the concrete disconnect frame through the sample client logs,
sends the mirrored ack, then closes. -/
theorem disconnect_close_after_ack_witness :
    background_task sampleClient sys_disconnect_frame =
      Effect.logInfo "received disconnect topic" ::
        (((some (⟨⟨"disconnect", "m1"⟩, Json.str "ok"⟩ : AckMessage)).map
            fun a => Effect.send (AckMessage.to_dict a)).toList ++
          [Effect.close]) :=
  disconnect_close_after_ack sampleClient sys_disconnect_frame
    ⟨⟨"disconnect", "m1"⟩, Json.null⟩
    (some ⟨⟨"disconnect", "m1"⟩, Json.str "ok"⟩)
    rfl rfl rfl rfl

/-- C6: a CALLBACK frame that decodes to a topic with no registered handler is
logged and dropped: route_message performs no send, raises nothing and
returns the empty result, and the whole dispatch unit's trace is just the
print and the warning log. -/
theorem callback_unregistered_dropped (c : RouterClient) (j : Json)
    (msg : StreamMessage)
    (htype : dictGet j "type" (Json.str "") =
      Except.ok (Json.str CallbackMessage.TYPE))
    (hdec : messageFromDict j = Except.ok msg)
    (hnone : c.callback_handler_map.lookup msg.headers.topic = none) :
    route_message c j =
      ([Effect.printed "msg", Effect.logWarning "unknown callback message topic"],
       Except.ok "") ∧
    background_task c j =
      [Effect.printed "msg", Effect.logWarning "unknown callback message topic"] := by
  have hr : route_message c j =
      ([Effect.printed "msg", Effect.logWarning "unknown callback message topic"],
       Except.ok "") := by
    simp [route_message, route_message_core, htype, hdec, hnone,
          CallbackMessage.TYPE, SystemMessage.TYPE, EventMessage.TYPE, Json.eqStr]
  refine ⟨hr, ?_⟩
  simp [background_task, hr, DingTalkStreamClient.TAG_DISCONNECT]

/-- C6 witness: the concrete orphan callback frame through the sample client
is printed, warned about and dropped with no ack and no fault. -/
theorem callback_unregistered_dropped_witness :
    route_message sampleClient callback_orphan_frame =
      ([Effect.printed "msg", Effect.logWarning "unknown callback message topic"],
       Except.ok "") :=
  (callback_unregistered_dropped sampleClient callback_orphan_frame
    ⟨⟨"nochat", "m3"⟩, Json.null⟩ rfl rfl rfl).1

/-- C4: when routing a frame raises (for instance because its handler raised),
the dispatch unit catches the fault and logs it — its trace is the effects
already performed plus one error log, with no escaping exception — and the
receive loop still receives and dispatches every subsequent frame. -/
theorem handler_fault_isolated (c : RouterClient) (j : Json) (e : Exc)
    (h : (route_message c j).snd = Except.error e) :
    background_task c j =
      (route_message c j).fst ++ [Effect.logError "error processing message"] ∧
    ∀ frames : List RawFrame,
      receive_loop (RawFrame.frame j :: frames) =
        (j :: (receive_loop frames).fst, (receive_loop frames).snd) := by
  exact ⟨background_task_of_error c j e h, fun frames => rfl⟩

/-- C4 witness: the event frame through the client whose event handler raises
is logged, and the next frame of the loop is still dispatched. -/
theorem handler_fault_isolated_witness :
    background_task faultyClient event_frame =
      (route_message faultyClient event_frame).fst ++
        [Effect.logError "error processing message"] :=
  (handler_fault_isolated faultyClient event_frame (Exc.handlerFault "boom") rfl).1

/-- C1 counterexample: a raw frame whose JSON parse fails raises
json.JSONDecodeError inside the receive loop itself (json.loads runs in the
loop body, before the dispatch unit is spawned), so no dispatch unit catches
it, the Transport Session's receive loop terminates, and the following
well-formed frame is never received or processed. -/
theorem decode_failure_kills_receive_loop :
    receive_loop [RawFrame.malformed, RawFrame.frame event_frame] =
      ([], some Exc.jsonDecodeError) := by
  rfl

/-- C1 amended: only for frames that parse as JSON is failure contained: the
receive loop receives and dispatches every JSON-parseable frame without
terminating, and any failure of the remaining decoding or routing of such a
frame is caught inside the frame's own dispatch unit and logged, never
escaping it. -/
theorem parsed_frames_failures_contained (c : RouterClient)
    (frames : List RawFrame)
    (h : ∀ f ∈ frames, f ≠ RawFrame.malformed) :
    (receive_loop frames).snd = none ∧
    (receive_loop frames).fst.length = frames.length ∧
    ∀ j ∈ (receive_loop frames).fst, ∀ e,
      (route_message c j).snd = Except.error e →
      background_task c j =
        (route_message c j).fst ++ [Effect.logError "error processing message"] := by
  induction frames with
  | nil => exact ⟨rfl, rfl, by intro j hj; simp [receive_loop] at hj⟩
  | cons f rest ih =>
    have hf := h f (by simp)
    match f, hf with
    | RawFrame.frame j, _ =>
      obtain ⟨ih1, ih2, ih3⟩ := ih (fun g hg => h g (by simp [hg]))
      refine ⟨?_, ?_, ?_⟩
      · simpa [receive_loop] using ih1
      · simpa [receive_loop] using ih2
      · intro j2 hj2 e he
        simp only [receive_loop, List.mem_cons] at hj2
        rcases hj2 with rfl | hj2
        · exact background_task_of_error c j2 e he
        · exact ih3 j2 hj2 e he

/-- C1 amended witness: a JSON-parseable frame whose structural decoding
fails is dispatched (the loop survives) and its failure is logged inside its
dispatch unit. -/
theorem parsed_frames_failures_contained_witness :
    (receive_loop [RawFrame.frame undecodable_frame]).snd = none ∧
    (receive_loop [RawFrame.frame undecodable_frame]).fst.length =
      [RawFrame.frame undecodable_frame].length ∧
    ∀ j ∈ (receive_loop [RawFrame.frame undecodable_frame]).fst, ∀ e,
      (route_message sampleClient j).snd = Except.error e →
      background_task sampleClient j =
        (route_message sampleClient j).fst ++
          [Effect.logError "error processing message"] :=
  parsed_frames_failures_contained sampleClient [RawFrame.frame undecodable_frame]
    (by rintro f hf; simp at hf; subst hf; rintro hcon; cases hcon)
